import Mathlib

/-!
Verification development for the placement/anchoring core of KitCoreWebAR
(`KitCoreWebAR-main.js`).  The JavaScript source is shallowly embedded:
numbers are modelled as real numbers, the per-frame callbacks and event
handlers as pure state-transition functions, and the asynchronous WebXR
anchor API as explicit request lists plus a separate resolution event.
External collaborators (the three.js scene graph, the WebXR session, the
geolocation stream) appear only at their interface boundary: poses, hit
results and location fixes are inputs, visibility/pose writes on render
handles are fields of the embedded state.
-/

namespace KitCoreWebAR

open scoped Classical

noncomputable section

/-- `AR_CONFIG.DETECTION_RADIUS` (meters): the global fallback detection radius. -/
def DETECTION_RADIUS : ℝ := 10

/-- `AR_CONFIG.MODEL_HEIGHT` (meters): default altitude of a geo object. -/
def MODEL_HEIGHT : ℝ := 1.5

/-- `AR_CONFIG.MODEL_SCALE`: default scale applied by `addObject` model loads. -/
def MODEL_SCALE : ℝ := 0.5

/-- `AR_CONFIG.EARTH_RADIUS` (meters, WGS-84 equatorial radius). -/
def EARTH_RADIUS : ℝ := 6378137

/-- JavaScript `Math.atan2 y x` (angle of the point `(x, y)`). -/
def atan2 (y x : ℝ) : ℝ :=
  if 0 < x then Real.arctan (y / x)
  else if x < 0 then
    (if 0 ≤ y then Real.arctan (y / x) + Real.pi else Real.arctan (y / x) - Real.pi)
  else if 0 < y then Real.pi / 2
  else if y < 0 then -(Real.pi / 2)
  else 0

/-- The `toRad` helper of `GeolocationManager.calculateDistance`. -/
def toRad (deg : ℝ) : ℝ := deg * (Real.pi / 180)

/-- The haversine intermediate `a` computed inside
`GeolocationManager.calculateDistance`. -/
def haversineTerm (lat1 lon1 lat2 lon2 : ℝ) : ℝ :=
  Real.sin (toRad (lat2 - lat1) / 2) ^ 2 +
    Real.cos (toRad lat1) * Real.cos (toRad lat2) * Real.sin (toRad (lon2 - lon1) / 2) ^ 2

/-- `GeolocationManager.calculateDistance`: great-circle distance in meters by
the haversine formula, `2 * R * atan2 (sqrt a) (sqrt (1 - a))`. -/
def calculateDistance (lat1 lon1 lat2 lon2 : ℝ) : ℝ :=
  2 * EARTH_RADIUS *
    atan2 (Real.sqrt (haversineTerm lat1 lon1 lat2 lon2))
      (Real.sqrt (1 - haversineTerm lat1 lon1 lat2 lon2))

/-- `GeolocationManager.convertGPSToMeters`: equirectangular local offset
`{x: dLon, z: -dLat}` of `(lat, lon)` relative to `(refLat, refLon)`. -/
def convertGPSToMeters (lat lon refLat refLon : ℝ) : ℝ × ℝ :=
  ((lon - refLon) * (Real.pi / 180) * EARTH_RADIUS * Real.cos (refLat * Real.pi / 180),
    -((lat - refLat) * (Real.pi / 180) * EARTH_RADIUS))

/-- A three.js `Vector3` as far as this core reads/writes it. -/
structure Vec3 where
  x : ℝ
  y : ℝ
  z : ℝ

/-- A three.js / WebXR quaternion `{x, y, z, w}`. -/
structure Quat where
  x : ℝ
  y : ℝ
  z : ℝ
  w : ℝ

/-- An `XRPose`-like pose: position plus orientation, as read off
`pose.transform` by the source. -/
structure Pose where
  position : Vec3
  orientation : Quat

/-- three.js `Vector3.dot`. -/
def dotV (a b : Vec3) : ℝ := a.x * b.x + a.y * b.y + a.z * b.z

/-- three.js `Vector3.lengthSq`. -/
def lengthSq (a : Vec3) : ℝ := a.x * a.x + a.y * a.y + a.z * a.z

/-- three.js `Vector3.angleTo` (r127): `acos (clamp (dot / sqrt (lenSq * lenSq)) (-1) 1)`,
with a degenerate-denominator guard returning `π / 2`. -/
def angleTo (a b : Vec3) : ℝ :=
  if Real.sqrt (lengthSq a * lengthSq b) = 0 then Real.pi / 2
  else Real.arccos (max (-1) (min 1 (dotV a b / Real.sqrt (lengthSq a * lengthSq b))))

/-- The surface normal computed by `isVerticalSurface`: the vector
`(0, 0, 1)` taken through `Matrix4.makeRotationFromQuaternion q`
(`applyMatrix4` on a pure rotation reads out the matrix's third column). -/
def surfaceNormal (q : Quat) : Vec3 :=
  let x2 := q.x + q.x
  let y2 := q.y + q.y
  let z2 := q.z + q.z
  let xx := q.x * x2
  let yy := q.y * y2
  let xz := q.x * z2
  let yz := q.y * z2
  let wx := q.w * x2
  let wy := q.w * y2
  ⟨xz + wy, yz - wx, 1 - (xx + yy)⟩

/-- `KitCoreWebAR.isVerticalSurface`: the hit orientation's normal makes an
angle with the vertical vector `(0, 1, 0)` that is within `π / 4` of `π / 2`. -/
def isVerticalSurface (q : Quat) : Prop :=
  |angleTo (surfaceNormal q) ⟨0, 1, 0⟩ - Real.pi / 2| < Real.pi / 4

/-- The configured mode selector (`MODES`). -/
inductive Mode where
  | viewer
  | floor
  | wall
  | gps
  | anchors
deriving DecidableEq

/-- The externally owned three.js render node, restricted to the fields this
core writes: visibility, position, quaternion, uniform scale, and the Euler
rotation about the vertical axis used by the touch gestures. -/
structure RenderNode where
  visible : Bool
  position : Vec3
  quaternion : Quat
  scale : Vec3
  rotationY : ℝ

/-- An `XRAnchor` handle: an opaque identity, plus whether the handle exposes
a callable release method (the source guards the release with
`typeof obj.anchor.delete === "function"`). -/
structure AnchorHandle where
  id : ℕ
  canDelete : Bool

/-- One entry of `this.objects`, as pushed by `addObject`:
`{ lat, lon, object, distance, altitude, lookatuser, anchor }`. -/
structure ARObject where
  lat : ℝ
  lon : ℝ
  object : RenderNode
  distance : Option ℝ
  altitude : ℝ
  lookatuser : Bool
  anchor : Option AnchorHandle

/-- One configured `kitcore-webar-object` element, with each attribute already
taken through `parseFloat`: `none` stands for a missing attribute or one that
does not parse to a number (`parseFloat` yields `NaN`, which is falsy exactly
like a missing attribute everywhere the source tests these values). -/
structure ObjectElement where
  lat : Option ℝ
  lon : Option ℝ
  src : Option String
  distance : Option ℝ
  altitude : Option ℝ
  lookatuser : Option String

/-- `parseFloat(element.getAttribute("distance")) || null`: a parsed value of
`0` is falsy and collapses to `null`. -/
def normalizeDistance (d : Option ℝ) : Option ℝ :=
  match d with
  | some v => if v = 0 then none else some v
  | none => none

/-- `parseFloat(element.getAttribute("altitude")) || AR_CONFIG.MODEL_HEIGHT`:
missing, unparseable or zero falls back to the default height. -/
def normalizeAltitude (a : Option ℝ) : ℝ :=
  match a with
  | some v => if v = 0 then MODEL_HEIGHT else v
  | none => MODEL_HEIGHT

/-- The render node of a freshly loaded geo object: `addObject` loads the
model at `AR_CONFIG.MODEL_SCALE` and sets `object.visible = false`; position
and orientation are left at the loader defaults. -/
def initialNode : RenderNode :=
  ⟨false, ⟨0, 0, 0⟩, ⟨0, 0, 0, 1⟩, ⟨MODEL_SCALE, MODEL_SCALE, MODEL_SCALE⟩, 0⟩

/-- The body of the `loadObjects` loop for one element: attributes are read,
and the object is added only `if (lat && lon && src)` — a latitude or
longitude that is missing, unparseable or exactly `0` is falsy, as is a
missing or empty `src`.  A successful `addObject` (model load assumed to
succeed; a load failure only logs and adds nothing) pushes the record with
`anchor: null` and an invisible node. -/
def loadObject (e : ObjectElement) : Option ARObject :=
  match e.lat, e.lon, e.src with
  | some la, some lo, some s =>
      if la ≠ 0 ∧ lo ≠ 0 ∧ s ≠ "" then
        some
          { lat := la
            lon := lo
            object := initialNode
            distance := normalizeDistance e.distance
            altitude := normalizeAltitude e.altitude
            lookatuser := e.lookatuser == some "true"
            anchor := none }
      else none
  | _, _, _ => none

/-- `KitCoreWebAR.loadObjects`: every configured element is taken through
`loadObject`; elements failing the truthiness guard are silently skipped. -/
def loadObjects (els : List ObjectElement) : List ARObject :=
  els.filterMap loadObject

/-- The detection-radius chain of `enableGPS` (line
`obj.distance || this.getAttribute("distance") || AR_CONFIG.DETECTION_RADIUS`):
a stored numeric override of `0` is falsy and falls through; the host
attribute is a string, truthy whenever present and non-empty (here modelled
by its numeric value, `none` for absent or empty). -/
def gpsDetectionRadius (objDistance hostAttr : Option ℝ) : ℝ :=
  match objDistance with
  | some d => if d = 0 then (match hostAttr with | some v => v | none => DETECTION_RADIUS) else d
  | none => match hostAttr with | some v => v | none => DETECTION_RADIUS

/-- The detection-radius chain of `enableAnchors` (same `||` chain as
`enableGPS`, read per frame). -/
def anchorsDetectionRadius (objDistance hostAttr : Option ℝ) : ℝ :=
  match objDistance with
  | some d => if d = 0 then (match hostAttr with | some v => v | none => DETECTION_RADIUS) else d
  | none => match hostAttr with | some v => v | none => DETECTION_RADIUS

/-- Modelled from the spec's words (§3 DetectionRadius), for comparison with
the source chains: "object-specific override if present, else mode-level
default, else a global fallback constant". -/
def specDetectionRadius (override modeDefault : Option ℝ) : ℝ :=
  match override with
  | some r => r
  | none => match modeDefault with | some r => r | none => DETECTION_RADIUS

/-- The `enableGPS` location-callback body for one object: within radius the
node becomes visible at the local offset (at the object's altitude), outside
it becomes invisible. -/
def gpsUpdateObject (userLat userLon : ℝ) (hostAttr : Option ℝ) (o : ARObject) : ARObject :=
  let detectionRadius := gpsDetectionRadius o.distance hostAttr
  let distanceToUser := calculateDistance userLat userLon o.lat o.lon
  if distanceToUser < detectionRadius then
    { o with object :=
        { o.object with
            visible := true
            position := ⟨(convertGPSToMeters o.lat o.lon userLat userLon).1, o.altitude,
              (convertGPSToMeters o.lat o.lon userLat userLon).2⟩ } }
  else
    { o with object := { o.object with visible := false } }

/-- One `frame.createAnchor(new XRRigidTransform({x, y, z}), referenceSpace)`
request issued by `enableAnchors`. -/
structure CreateRequest where
  x : ℝ
  y : ℝ
  z : ℝ

/-- The outcome of one object's per-frame update in anchors mode: the updated
object plus the anchor-creation and anchor-release requests issued on this
frame (the asynchronous side of the WebXR anchor API). -/
structure StepResult where
  obj : ARObject
  creates : List CreateRequest
  releases : List ℕ

/-- The proximity/anchor-lifecycle part of the `enableAnchors` per-frame loop
body for one object (`this.objects.forEach` body, before the `lookatuser`
finalizer).  Within radius: with no anchor handle, a creation request is
issued (its promise resolves later, see `resolveCreate`) and the object is
otherwise untouched this frame; with an anchor handle, the anchor pose is
queried and, when it resolves, copied onto the render node which is kept
visible — a `null` pose leaves the node untouched.  Outside radius: the node
is made invisible and an existing anchor is released (when its handle has a
callable release) and dropped. -/
def anchorsUpdateObject (userLat userLon : ℝ) (hostAttr : Option ℝ)
    (getPoseO : ℕ → Option Pose) (o : ARObject) : StepResult :=
  let detectionRadius := anchorsDetectionRadius o.distance hostAttr
  let distanceToUser := calculateDistance userLat userLon o.lat o.lon
  if distanceToUser < detectionRadius then
    match o.anchor with
    | none =>
        { obj := o
          creates := [⟨(convertGPSToMeters o.lat o.lon userLat userLon).1, o.altitude,
            (convertGPSToMeters o.lat o.lon userLat userLon).2⟩]
          releases := [] }
    | some a =>
        match getPoseO a.id with
        | some anchorPose =>
            { obj :=
                { o with object :=
                    { o.object with
                        position := anchorPose.position
                        quaternion := anchorPose.orientation
                        visible := true } }
              creates := []
              releases := [] }
        | none => { obj := o, creates := [], releases := [] }
  else
    match o.anchor with
    | some a =>
        { obj := { o with object := { o.object with visible := false }, anchor := none }
          creates := []
          releases := if a.canDelete then [a.id] else [] }
    | none =>
        { obj := { o with object := { o.object with visible := false } }
          creates := []
          releases := [] }

/-- The `.then` callback of a `createAnchor` promise resolving for an object:
store the handle and make the node visible. -/
def resolveCreate (a : AnchorHandle) (o : ARObject) : ARObject :=
  { o with anchor := some a, object := { o.object with visible := true } }

/-- The `lookatuser` finalizer at the end of the `enableAnchors` loop body:
an object that ends the frame visible and has `lookatuser` set is rotated to
face the camera.  `lookAtFn` stands for the external three.js
`Object3D.lookAt` (scene-graph math, outside this core); it receives the
object position and the camera position and yields the resulting orientation. -/
def applyFaceUser (lookAtFn : Vec3 → Vec3 → Quat) (cameraPos : Vec3) (o : ARObject) : ARObject :=
  if o.lookatuser && o.object.visible then
    { o with object := { o.object with quaternion := lookAtFn o.object.position cameraPos } }
  else o

/-- One object's full `enableAnchors` per-frame update: proximity/anchor
lifecycle followed by the `lookatuser` finalizer. -/
def anchorsObjectStep (userLat userLon : ℝ) (hostAttr : Option ℝ)
    (getPoseO : ℕ → Option Pose) (lookAtFn : Vec3 → Vec3 → Quat) (cameraPos : Vec3)
    (o : ARObject) : StepResult :=
  let r := anchorsUpdateObject userLat userLon hostAttr getPoseO o
  { r with obj := applyFaceUser lookAtFn cameraPos r.obj }

/-- The whole `enableAnchors` animation-loop callback: the per-object updates
run only when a frame is delivered and `this.currentUserLat` /
`this.currentUserLon` have been populated by a location fix; otherwise the
frame only renders and every object is left untouched, with no requests
issued. -/
def anchorsFrame (frameOk : Bool) (loc : Option (ℝ × ℝ)) (hostAttr : Option ℝ)
    (getPoseO : ℕ → Option Pose) (lookAtFn : Vec3 → Vec3 → Quat) (cameraPos : Vec3)
    (objs : List ARObject) : List ARObject × List CreateRequest × List ℕ :=
  match frameOk, loc with
  | true, some (ulat, ulon) =>
      let results := objs.map (fun o => anchorsObjectStep ulat ulon hostAttr getPoseO lookAtFn cameraPos o)
      (results.map StepResult.obj, (results.map StepResult.creates).flatten,
        (results.map StepResult.releases).flatten)
  | _, _ => (objs, [], [])

/-- The single surface-placed object of floor/wall mode: the loaded render
node plus the `isPlaced` flag stuck onto it by `enablePlacement`. -/
structure PlacedObject where
  visible : Bool
  isPlaced : Bool
  position : Vec3
  quaternion : Quat
  scale : Vec3
  rotationY : ℝ

/-- The `select` event listener body of `enablePlacement`.  `hits` carries
`frame.getHitTestResults(...)` with each entry's `getPose(referenceSpace)`
result (which may be `null`).  With no hit-test source the handler only warns;
with a hit and a loaded object: in wall mode the hit orientation is copied
unconditionally, the position is copied (and `isPlaced` set) only when the
object is not yet placed or repositioning is enabled, and the object is made
visible. -/
def selectHandler (mode : Mode) (positionateEnabled : Bool) (hitTestSourceOk : Bool)
    (hits : List (Option Pose)) (placed : Option PlacedObject) : Option PlacedObject :=
  if hitTestSourceOk = false then placed
  else
    match hits, placed with
    | hitPose :: _, some p =>
        (match hitPose with
          | some pose =>
              let p1 := if mode = Mode.wall then { p with quaternion := pose.orientation } else p
              let p2 :=
                if (!p1.isPlaced) || positionateEnabled then
                  { p1 with position := pose.position, isPlaced := true }
                else p1
              some { p2 with visible := true }
          | none => some p)
    | _, _ => placed

/-- The status text published by the `enablePlacement` animation loop on one
frame: `hitOrientation` is the first hit's orientation when a hit-test result
exists.  The overlay text is only rewritten while the placed object is not
yet visible; `none` means the frame leaves the overlay untouched. -/
def placementStatus (mode : Mode) (hitOrientation : Option Quat) (placedVisible : Bool) :
    Option String :=
  match hitOrientation with
  | some q =>
      if mode = Mode.wall then
        (if placedVisible then none
         else if isVerticalSurface q then some "Wall detected, tap to place"
         else some "Surface detected, tap to place")
      else if placedVisible then none
      else some "Surface detected, tap to place"
  | none =>
      if placedVisible then none
      else if mode = Mode.wall then some "Move to find a vertical surface"
      else some "Move around to detect a surface"

/-- One touch point's screen coordinates. -/
structure Touch where
  clientX : ℝ
  clientY : ℝ

/-- The closure state of `setupNativeTouchControls`: reference distance and
angle of the current two-finger gesture (cleared on touch end), and the scale
and vertical-axis rotation of the object when the gesture started. -/
structure GestureState where
  initialTouchDistance : Option ℝ
  initialTouchAngle : Option ℝ
  initialScale : ℝ
  initialRotation : ℝ

/-- The `rotateEnabled` / `scaleEnabled` options of `setupNativeTouchControls`. -/
structure TouchOptions where
  rotateEnabled : Bool
  scaleEnabled : Bool

/-- `getDistance` of `setupNativeTouchControls`. -/
def getDistance (t1 t2 : Touch) : ℝ :=
  Real.sqrt ((t2.clientX - t1.clientX) * (t2.clientX - t1.clientX) +
    (t2.clientY - t1.clientY) * (t2.clientY - t1.clientY))

/-- `getAngle` of `setupNativeTouchControls`. -/
def getAngle (t1 t2 : Touch) : ℝ :=
  atan2 (t2.clientY - t1.clientY) (t2.clientX - t1.clientX)

/-- The `touchstart` listener: a two-touch event records the reference
distance and angle and snapshots the object's scale and rotation. -/
def touchStartHandler (touches : List Touch) (p : PlacedObject) (s : GestureState) :
    GestureState :=
  match touches with
  | [t1, t2] => ⟨some (getDistance t1 t2), some (getAngle t1 t2), p.scale.x, p.rotationY⟩
  | _ => s

/-- The `touchmove` listener: on a two-touch event, scale is set to the
snapshot scale times the current/reference distance ratio (when enabled and a
reference exists), and `rotation.y` is set to the snapshot rotation MINUS the
angle delta (when enabled and a reference exists). -/
def touchMoveHandler (options : TouchOptions) (touches : List Touch) (p : PlacedObject)
    (s : GestureState) : PlacedObject :=
  match touches with
  | [t1, t2] =>
      let currentDistance := getDistance t1 t2
      let currentAngle := getAngle t1 t2
      let p1 :=
        match s.initialTouchDistance with
        | some d0 =>
            if options.scaleEnabled then
              { p with scale := ⟨s.initialScale * (currentDistance / d0),
                  s.initialScale * (currentDistance / d0),
                  s.initialScale * (currentDistance / d0)⟩ }
            else p
        | none => p
      match s.initialTouchAngle with
      | some a0 =>
          if options.rotateEnabled then
            { p1 with rotationY := s.initialRotation - (currentAngle - a0) }
          else p1
      | none => p1
  | _ => p

/-- The `touchend` listener: dropping below two touch points clears the
gesture references so the next two-finger gesture starts fresh. -/
def touchEndHandler (touches : List Touch) (s : GestureState) : GestureState :=
  if touches.length < 2 then
    { s with initialTouchDistance := none, initialTouchAngle := none }
  else s

/-- A geo object colocated with the user at `(1, 1)`, no anchor yet:
its creation request is in flight and unresolved. -/
def pendingObj : ARObject := ⟨1, 1, initialNode, none, MODEL_HEIGHT, false, none⟩

/-- A render node that has already been made visible (its object is anchored). -/
def anchoredNode : RenderNode := { initialNode with visible := true }

/-- The anchor handle of `farObj`. -/
def farAnchor : AnchorHandle := ⟨7, true⟩

/-- An anchored object at `(0, 180)`, half the globe away from a user at
`(0, 0)`: out of any reasonable detection radius. -/
def farObj : ARObject := ⟨0, 180, anchoredNode, none, MODEL_HEIGHT, false, some farAnchor⟩

/-- The anchor handle of `nearObj`. -/
def nearAnchor : AnchorHandle := ⟨3, true⟩

/-- An anchored object colocated with the user at `(1, 1)`. -/
def nearObj : ARObject := ⟨1, 1, anchoredNode, none, MODEL_HEIGHT, false, some nearAnchor⟩

/-- A placed object that is already positioned (`isPlaced`), with identity
orientation. -/
def lockedPlaced : PlacedObject := ⟨true, true, ⟨0, 0, 0⟩, ⟨0, 0, 0, 1⟩, ⟨1, 1, 1⟩, 0⟩

/-- A hit-test pose whose orientation differs from `lockedPlaced`'s. -/
def wallHit : Pose := ⟨⟨5, 6, 7⟩, ⟨1, 0, 0, 0⟩⟩

/-- A configured element with no parseable latitude. -/
def badElement : ObjectElement := ⟨none, some 2, some "model.glb", none, none, none⟩

/-- A fully valid configured element with a distance override of `5`. -/
def goodElement : ObjectElement := ⟨some 1, some 2, some "model.glb", some 5, none, none⟩

/-- The tracked object `loadObjects` builds from `goodElement`. -/
def goodObj : ARObject := ⟨1, 2, initialNode, some 5, MODEL_HEIGHT, false, none⟩

/-- Touch at the screen origin. -/
def touchO : Touch := ⟨0, 0⟩

/-- Touch one unit along the screen x axis (reference angle `0`). -/
def touchE : Touch := ⟨1, 0⟩

/-- Touch one unit along the screen y axis (angle `π / 2`). -/
def touchN : Touch := ⟨0, 1⟩

/-- A placed object under gesture control, baseline rotation `0`. -/
def gestureP : PlacedObject := ⟨true, true, ⟨0, 0, 0⟩, ⟨0, 0, 0, 1⟩, ⟨1, 1, 1⟩, 0⟩

/-- An idle gesture state (no reference sample yet). -/
def idleGesture : GestureState := ⟨none, none, 1, 0⟩

end

theorem atan2_zero_one : atan2 0 1 = 0 := by
  unfold atan2
  rw [if_pos (by norm_num : (0 : ℝ) < 1)]
  simp [Real.arctan_zero]

theorem atan2_one_zero : atan2 1 0 = Real.pi / 2 := by
  unfold atan2
  norm_num

theorem haversineTerm_self (lat lon : ℝ) : haversineTerm lat lon lat lon = 0 := by
  unfold haversineTerm toRad
  simp

theorem calculateDistance_self (lat lon : ℝ) : calculateDistance lat lon lat lon = 0 := by
  unfold calculateDistance
  rw [haversineTerm_self, Real.sqrt_zero, show (1 : ℝ) - 0 = 1 by norm_num, Real.sqrt_one,
    atan2_zero_one, mul_zero]

theorem sin_sq_toRad_swap (x y : ℝ) :
    Real.sin (toRad (x - y) / 2) ^ 2 = Real.sin (toRad (y - x) / 2) ^ 2 := by
  have h : toRad (x - y) / 2 = -(toRad (y - x) / 2) := by unfold toRad; ring
  rw [h, Real.sin_neg, neg_sq]

theorem haversineTerm_comm (lat1 lon1 lat2 lon2 : ℝ) :
    haversineTerm lat1 lon1 lat2 lon2 = haversineTerm lat2 lon2 lat1 lon1 := by
  unfold haversineTerm
  rw [sin_sq_toRad_swap lat2 lat1, sin_sq_toRad_swap lon2 lon1]
  ring

theorem calculateDistance_comm (lat1 lon1 lat2 lon2 : ℝ) :
    calculateDistance lat1 lon1 lat2 lon2 = calculateDistance lat2 lon2 lat1 lon1 := by
  unfold calculateDistance
  rw [haversineTerm_comm]

theorem haversineTerm_antipodal : haversineTerm 0 0 0 180 = 1 := by
  unfold haversineTerm toRad
  have h1 : ((0 : ℝ) - 0) * (Real.pi / 180) / 2 = 0 := by ring
  have h2 : ((180 : ℝ) - 0) * (Real.pi / 180) / 2 = Real.pi / 2 := by ring
  have h3 : (0 : ℝ) * (Real.pi / 180) = 0 := by ring
  rw [h1, h2, h3, Real.sin_zero, Real.cos_zero, Real.sin_pi_div_two]
  norm_num

theorem calculateDistance_antipodal : calculateDistance 0 0 0 180 = EARTH_RADIUS * Real.pi := by
  unfold calculateDistance
  rw [haversineTerm_antipodal, show (1 : ℝ) - 1 = 0 by norm_num, Real.sqrt_zero, Real.sqrt_one,
    atan2_one_zero]
  ring

theorem anchorsDetectionRadius_none_none : anchorsDetectionRadius none none = 10 := rfl

theorem antipodal_not_lt_radius :
    ¬ calculateDistance 0 0 0 180 < anchorsDetectionRadius none none := by
  rw [calculateDistance_antipodal, anchorsDetectionRadius_none_none, not_lt]
  unfold EARTH_RADIUS
  nlinarith [Real.pi_gt_three]

theorem self_within_radius : calculateDistance 1 1 1 1 < anchorsDetectionRadius none none := by
  rw [calculateDistance_self, anchorsDetectionRadius_none_none]
  norm_num

theorem normalizeDistance_ne_some_zero (d : Option ℝ) : normalizeDistance d ≠ some 0 := by
  cases d with
  | none => simp [normalizeDistance]
  | some v =>
      by_cases hv : v = 0
      · simp [normalizeDistance, hv]
      · simp [normalizeDistance, hv]

theorem loadObject_fields {e : ObjectElement} {o : ARObject} (h : loadObject e = some o) :
    o.object = initialNode ∧ o.anchor = none ∧ o.distance ≠ some 0 := by
  rcases e with ⟨la, lo, s, d, alt, lu⟩
  cases la <;> cases lo <;> cases s <;> simp only [loadObject] at h
  all_goals try exact Option.noConfusion h
  split_ifs at h with hc
  rw [Option.some_inj] at h
  subst h
  exact ⟨rfl, rfl, normalizeDistance_ne_some_zero d⟩

theorem mem_loadObjects {els : List ObjectElement} {o : ARObject} (h : o ∈ loadObjects els) :
    o.object = initialNode ∧ o.anchor = none ∧ o.distance ≠ some 0 := by
  obtain ⟨e, -, he⟩ := List.mem_filterMap.mp h
  exact loadObject_fields he

/-- Claim C9: the great-circle distance function returns 0 on equal points and
is symmetric in its two points. -/
theorem c9_distance_symm_zero :
    (∀ lat lon : ℝ, calculateDistance lat lon lat lon = 0) ∧
    (∀ lat1 lon1 lat2 lon2 : ℝ,
      calculateDistance lat1 lon1 lat2 lon2 = calculateDistance lat2 lon2 lat1 lon1) :=
  ⟨calculateDistance_self, calculateDistance_comm⟩

theorem pendingObj_within :
    calculateDistance 1 1 pendingObj.lat pendingObj.lon <
      anchorsDetectionRadius pendingObj.distance none := by
  show calculateDistance 1 1 (1 : ℝ) 1 < anchorsDetectionRadius none none
  exact self_within_radius

/-- Claim C1: the claim states that while an anchor creation is unresolved, no
second creation request is issued for the same in-range object.  The source
tracks pending creation only through `obj.anchor`, which is written by the
promise callback, so every frame on which the object is in range and the
first request has not yet resolved issues a further `createAnchor` request:
here two consecutive frames for the same unresolved object each issue one
creation request.  This contradicts the claim (and the spec's own testable
property), evidencing the duplicate-request race in the code. -/
theorem c1_duplicate_creation_requests :
    (anchorsUpdateObject 1 1 none (fun _ => none) pendingObj).creates.length = 1 ∧
    (anchorsUpdateObject 1 1 none (fun _ => none) pendingObj).obj = pendingObj ∧
    (anchorsUpdateObject 1 1 none (fun _ => none)
        ((anchorsUpdateObject 1 1 none (fun _ => none) pendingObj).obj)).creates.length = 1 := by
  have hstep : anchorsUpdateObject 1 1 none (fun _ => none) pendingObj =
      ⟨pendingObj,
        [⟨(convertGPSToMeters pendingObj.lat pendingObj.lon 1 1).1, pendingObj.altitude,
          (convertGPSToMeters pendingObj.lat pendingObj.lon 1 1).2⟩], []⟩ := by
    unfold anchorsUpdateObject
    rw [if_pos pendingObj_within]
    rfl
  have hobj : (anchorsUpdateObject 1 1 none (fun _ => none) pendingObj).obj = pendingObj := by
    rw [hstep]
  refine ⟨?_, hobj, ?_⟩
  · rw [hstep]
    rfl
  · rw [hobj, hstep]
    rfl

/-- Claim C2: a frame on which an object's distance is at least its detection
radius makes the render node invisible; when the object was anchored, exactly
one release request is issued (none on the following out-of-range frame) and
the anchor state returns to unanchored with a null handle.  The release is
guarded by the handle exposing a callable release method, hence `h2`. -/
theorem c2_out_of_range_release (ulat ulon : ℝ) (hostAttr : Option ℝ)
    (gp : ℕ → Option Pose) (la : Vec3 → Vec3 → Quat) (cam : Vec3)
    (o o2 : ARObject) (a : AnchorHandle)
    (h1 : o.anchor = some a) (h2 : a.canDelete = true)
    (h3 : ¬ calculateDistance ulat ulon o.lat o.lon < anchorsDetectionRadius o.distance hostAttr)
    (h4 : ¬ calculateDistance ulat ulon o2.lat o2.lon <
      anchorsDetectionRadius o2.distance hostAttr) :
    (anchorsObjectStep ulat ulon hostAttr gp la cam o).obj.object.visible = false ∧
    (anchorsObjectStep ulat ulon hostAttr gp la cam o).obj.anchor = none ∧
    (anchorsObjectStep ulat ulon hostAttr gp la cam o).releases = [a.id] ∧
    (anchorsObjectStep ulat ulon hostAttr gp la cam
        ((anchorsObjectStep ulat ulon hostAttr gp la cam o).obj)).releases = [] ∧
    (anchorsObjectStep ulat ulon hostAttr gp la cam o2).obj.object.visible = false := by
  have hu : anchorsUpdateObject ulat ulon hostAttr gp o =
      ⟨{ o with object := { o.object with visible := false }, anchor := none }, [], [a.id]⟩ := by
    unfold anchorsUpdateObject
    rw [if_neg h3, h1]
    simp [h2]
  have hface : ∀ o3 : ARObject, o3.object.visible = false → applyFaceUser la cam o3 = o3 := by
    intro o3 hvis
    unfold applyFaceUser
    rw [hvis]
    simp
  have hstep : anchorsObjectStep ulat ulon hostAttr gp la cam o =
      ⟨{ o with object := { o.object with visible := false }, anchor := none }, [], [a.id]⟩ := by
    unfold anchorsObjectStep
    rw [hu]
    dsimp only
    rw [hface _ rfl]
  have hstep2 : (anchorsObjectStep ulat ulon hostAttr gp la cam
      ({ o with object := { o.object with visible := false }, anchor := none })).releases = [] := by
    unfold anchorsObjectStep anchorsUpdateObject
    rw [if_neg (by simpa using h3)]
  have hvis2 : (anchorsObjectStep ulat ulon hostAttr gp la cam o2).obj.object.visible = false := by
    unfold anchorsObjectStep anchorsUpdateObject
    rw [if_neg h4]
    cases ho2 : o2.anchor <;> simp [applyFaceUser]
  refine ⟨by rw [hstep], by rw [hstep], by rw [hstep], ?_, hvis2⟩
  rw [hstep]
  exact hstep2

theorem farObj_not_within :
    ¬ calculateDistance 0 0 farObj.lat farObj.lon < anchorsDetectionRadius farObj.distance none := by
  show ¬ calculateDistance 0 0 (0 : ℝ) 180 < anchorsDetectionRadius none none
  exact antipodal_not_lt_radius

theorem c2_witness :
    (anchorsObjectStep 0 0 none (fun _ => none) (fun _ _ => ⟨0, 0, 0, 1⟩) ⟨0, 0, 0⟩
        farObj).obj.object.visible = false ∧
    (anchorsObjectStep 0 0 none (fun _ => none) (fun _ _ => ⟨0, 0, 0, 1⟩) ⟨0, 0, 0⟩
        farObj).obj.anchor = none ∧
    (anchorsObjectStep 0 0 none (fun _ => none) (fun _ _ => ⟨0, 0, 0, 1⟩) ⟨0, 0, 0⟩
        farObj).releases = [farAnchor.id] ∧
    (anchorsObjectStep 0 0 none (fun _ => none) (fun _ _ => ⟨0, 0, 0, 1⟩) ⟨0, 0, 0⟩
        ((anchorsObjectStep 0 0 none (fun _ => none) (fun _ _ => ⟨0, 0, 0, 1⟩) ⟨0, 0, 0⟩
          farObj).obj)).releases = [] ∧
    (anchorsObjectStep 0 0 none (fun _ => none) (fun _ _ => ⟨0, 0, 0, 1⟩) ⟨0, 0, 0⟩
        farObj).obj.object.visible = false :=
  c2_out_of_range_release 0 0 none (fun _ => none) (fun _ _ => ⟨0, 0, 0, 1⟩) ⟨0, 0, 0⟩
    farObj farObj farAnchor rfl rfl farObj_not_within farObj_not_within

/-- Claim C4: an anchored in-range object whose per-frame anchor pose query
returns `null` is left exactly as it was by the proximity/anchor update (the
source lines the claim cites): same position, orientation, visibility, anchor
state, and no requests.  The composed per-frame step (which appends the
`lookatuser` finalizer mandated separately by the spec) also preserves the
object's position and visibility. -/
theorem c4_pose_resolution_failure (ulat ulon : ℝ) (hostAttr : Option ℝ)
    (gp : ℕ → Option Pose) (la : Vec3 → Vec3 → Quat) (cam : Vec3)
    (o : ARObject) (a : AnchorHandle)
    (h1 : o.anchor = some a)
    (h2 : calculateDistance ulat ulon o.lat o.lon < anchorsDetectionRadius o.distance hostAttr)
    (h3 : gp a.id = none) :
    anchorsUpdateObject ulat ulon hostAttr gp o = ⟨o, [], []⟩ ∧
    (anchorsObjectStep ulat ulon hostAttr gp la cam o).obj.object.position =
      o.object.position ∧
    (anchorsObjectStep ulat ulon hostAttr gp la cam o).obj.object.visible =
      o.object.visible := by
  have hu : anchorsUpdateObject ulat ulon hostAttr gp o = ⟨o, [], []⟩ := by
    unfold anchorsUpdateObject
    rw [if_pos h2, h1]
    dsimp only
    rw [h3]
  have hface : (anchorsObjectStep ulat ulon hostAttr gp la cam o).obj = applyFaceUser la cam o := by
    unfold anchorsObjectStep
    rw [hu]
  refine ⟨hu, ?_, ?_⟩ <;> rw [hface] <;> unfold applyFaceUser <;> split_ifs <;> rfl

theorem nearObj_within :
    calculateDistance 1 1 nearObj.lat nearObj.lon <
      anchorsDetectionRadius nearObj.distance none := by
  show calculateDistance 1 1 (1 : ℝ) 1 < anchorsDetectionRadius none none
  exact self_within_radius

theorem c4_witness :
    anchorsUpdateObject 1 1 none (fun _ => none) nearObj = ⟨nearObj, [], []⟩ ∧
    (anchorsObjectStep 1 1 none (fun _ => none) (fun _ _ => ⟨0, 0, 0, 1⟩) ⟨0, 0, 0⟩
        nearObj).obj.object.position = nearObj.object.position ∧
    (anchorsObjectStep 1 1 none (fun _ => none) (fun _ _ => ⟨0, 0, 0, 1⟩) ⟨0, 0, 0⟩
        nearObj).obj.object.visible = nearObj.object.visible :=
  c4_pose_resolution_failure 1 1 none (fun _ => none) (fun _ _ => ⟨0, 0, 0, 1⟩) ⟨0, 0, 0⟩
    nearObj nearAnchor rfl nearObj_within rfl

/-- Claim C3 counterexample: in wall mode with repositioning disabled and the
object already placed (the locked configuration), a further confirm still
overwrites the placed object's orientation with the hit's orientation — the
source copies the hit quaternion before, and independent of, the
`isPlaced || positionateEnabled` check — so the pose is not left unchanged as
the claim states. -/
theorem c3_counterexample :
    selectHandler Mode.wall false true [some wallHit] (some lockedPlaced) =
      some { lockedPlaced with quaternion := wallHit.orientation } ∧
    ({ lockedPlaced with quaternion := wallHit.orientation }).quaternion ≠
      lockedPlaced.quaternion := by
  constructor
  · rfl
  · intro h
    simp only [lockedPlaced, wallHit, Quat.mk.injEq] at h
    norm_num at h

/-- Claim C3 (amended): a confirm with a hit pose and a loaded object always
marks the object visible and placed; the position is copied from the hit
exactly when the object is not yet placed or repositioning is enabled
(`isLocked` false), and is left unchanged once locked; the orientation is
copied from the hit in wall mode on EVERY confirm (locked or not), and is
never touched outside wall mode. -/
theorem c3_confirm_behavior (mode : Mode) (positionateEnabled : Bool)
    (rest : List (Option Pose)) (pose : Pose) (p : PlacedObject) :
    selectHandler mode positionateEnabled true (some pose :: rest) (some p) =
      some { visible := true
             isPlaced := true
             position := if (!p.isPlaced) || positionateEnabled then pose.position else p.position
             quaternion := if mode = Mode.wall then pose.orientation else p.quaternion
             scale := p.scale
             rotationY := p.rotationY } := by
  rcases p with ⟨vis, ip, pos, q, sc, ry⟩
  cases ip <;> cases positionateEnabled <;> by_cases hm : mode = Mode.wall <;>
    simp [selectHandler, hm]

theorem goodObj_mem : goodObj ∈ loadObjects [goodElement] := by
  have h : loadObject goodElement = some goodObj := by
    unfold loadObject goodElement
    dsimp only
    rw [if_pos ⟨by norm_num, by norm_num, by decide⟩, Option.some_inj]
    unfold goodObj
    norm_num [normalizeDistance, normalizeAltitude]
  exact List.mem_filterMap.mpr ⟨goodElement, by simp, h⟩

/-- Claim C5: for every tracked object (an object produced by `loadObjects`,
whose stored distance override is never the falsy `0`), the detection radius
used by the per-frame chains of both `enableAnchors` and `enableGPS` equals
the spec's fixed-order resolution: object override if present, else the
mode-level default, else the global fallback `10`. -/
theorem c5_detection_radius_order (els : List ObjectElement) (hostAttr : Option ℝ)
    (o : ARObject) (h : o ∈ loadObjects els) :
    anchorsDetectionRadius o.distance hostAttr = specDetectionRadius o.distance hostAttr ∧
    gpsDetectionRadius o.distance hostAttr = specDetectionRadius o.distance hostAttr := by
  obtain ⟨-, -, hd⟩ := mem_loadObjects h
  have key : ∀ dd : Option ℝ, dd ≠ some 0 →
      anchorsDetectionRadius dd hostAttr = specDetectionRadius dd hostAttr ∧
      gpsDetectionRadius dd hostAttr = specDetectionRadius dd hostAttr := by
    intro dd hdd
    cases dd with
    | none => exact ⟨rfl, rfl⟩
    | some dv =>
        have hdv : ¬ dv = 0 := fun h0 => hdd (by rw [h0])
        unfold anchorsDetectionRadius gpsDetectionRadius specDetectionRadius
        dsimp only
        rw [if_neg hdv]
        exact ⟨rfl, rfl⟩
  exact key o.distance hd

theorem c5_witness :
    anchorsDetectionRadius goodObj.distance (some 3) =
      specDetectionRadius goodObj.distance (some 3) ∧
    gpsDetectionRadius goodObj.distance (some 3) =
      specDetectionRadius goodObj.distance (some 3) :=
  c5_detection_radius_order [goodElement] (some 3) goodObj goodObj_mem

theorem surfaceNormal_id : surfaceNormal ⟨0, 0, 0, 1⟩ = ⟨0, 0, 1⟩ := by
  unfold surfaceNormal
  norm_num

theorem angleTo_z_up : angleTo (⟨0, 0, 1⟩ : Vec3) ⟨0, 1, 0⟩ = Real.pi / 2 := by
  unfold angleTo lengthSq dotV
  rw [show ((0 : ℝ) * 0 + 0 * 0 + 1 * 1) * (0 * 0 + 1 * 1 + 0 * 0) = 1 by norm_num,
    Real.sqrt_one, if_neg one_ne_zero,
    show (0 : ℝ) * 0 + 0 * 1 + 1 * 0 = 0 by norm_num]
  norm_num [Real.arccos_zero]

/-- Claim C6 counterexample: at the identity hit orientation the surface
normal is `(0, 0, 1)`, whose angle to the vertical axis is `π / 2` — it does
NOT deviate from vertical by less than `π / 4` — yet the code classifies the
surface as vertical and publishes the wall-detected status.  The claim's
"normal deviates from vertical by less than π / 4" criterion therefore does
not match the code. -/
theorem c6_counterexample :
    placementStatus Mode.wall (some ⟨0, 0, 0, 1⟩) false = some "Wall detected, tap to place" ∧
    ¬ angleTo (surfaceNormal ⟨0, 0, 0, 1⟩) ⟨0, 1, 0⟩ < Real.pi / 4 := by
  have hang : angleTo (surfaceNormal ⟨0, 0, 0, 1⟩) ⟨0, 1, 0⟩ = Real.pi / 2 := by
    rw [surfaceNormal_id, angleTo_z_up]
  have hvert : isVerticalSurface ⟨0, 0, 0, 1⟩ := by
    unfold isVerticalSurface
    rw [hang, sub_self, abs_zero]
    positivity
  constructor
  · have hred : placementStatus Mode.wall (some ⟨0, 0, 0, 1⟩) false =
        (if isVerticalSurface ⟨0, 0, 0, 1⟩ then some "Wall detected, tap to place"
         else some "Surface detected, tap to place") := rfl
    rw [hred, if_pos hvert]
  · rw [hang, not_lt]
    linarith [Real.pi_pos]

/-- Claim C6 (amended): in wall mode a hit surface is classified vertical —
publishing the wall-detected status — exactly when the angle between its
computed surface normal and the vertical axis differs from a right angle by
less than `π / 4`, i.e. the NORMAL lies within `π / 4` of the horizontal
plane (equivalently, strictly between `π / 4` and `3π / 4` from vertical),
not within `π / 4` of the vertical axis. -/
theorem c6_wall_status_iff (q : Quat) :
    placementStatus Mode.wall (some q) false = some "Wall detected, tap to place" ↔
      (Real.pi / 4 < angleTo (surfaceNormal q) ⟨0, 1, 0⟩ ∧
        angleTo (surfaceNormal q) ⟨0, 1, 0⟩ < 3 * Real.pi / 4) := by
  have hred : placementStatus Mode.wall (some q) false =
      (if isVerticalSurface q then some "Wall detected, tap to place"
       else some "Surface detected, tap to place") := rfl
  rw [hred]
  by_cases hv : isVerticalSurface q
  · rw [if_pos hv]
    unfold isVerticalSurface at hv
    rw [abs_lt] at hv
    exact ⟨fun _ => ⟨by linarith [hv.1], by linarith [hv.2]⟩, fun _ => rfl⟩
  · rw [if_neg hv]
    constructor
    · intro hcontra
      exact absurd hcontra (by decide)
    · intro hrange
      exact absurd (by unfold isVerticalSurface; rw [abs_lt]; constructor <;>
        [linarith [hrange.2]; linarith [hrange.1]]) hv

theorem getAngle_east : getAngle touchO touchE = 0 := by
  unfold getAngle touchO touchE
  norm_num [atan2_zero_one]

theorem getAngle_north : getAngle touchO touchN = Real.pi / 2 := by
  unfold getAngle touchO touchN
  norm_num [atan2_one_zero]

/-- Claim C7 counterexample: with the reference sample at angle `0` and the
current sample at angle `π / 2` (a `90°` angle delta) and baseline rotation
`0`, the code sets `rotation.y` to `-(π / 2)` — baseline MINUS the delta —
not baseline plus the delta as the claim states. -/
theorem c7_counterexample :
    (touchMoveHandler ⟨true, true⟩ [touchO, touchN] gestureP
        (touchStartHandler [touchO, touchE] gestureP idleGesture)).rotationY ≠
      gestureP.rotationY + (getAngle touchO touchN - getAngle touchO touchE) := by
  have hrot : (touchMoveHandler ⟨true, true⟩ [touchO, touchN] gestureP
      (touchStartHandler [touchO, touchE] gestureP idleGesture)).rotationY =
      gestureP.rotationY - (getAngle touchO touchN - getAngle touchO touchE) := rfl
  rw [hrot, getAngle_east, getAngle_north]
  have hg : gestureP.rotationY = 0 := rfl
  rw [hg]
  intro h
  have hpi := Real.pi_pos
  nlinarith [h]

/-- Claim C7 (amended): after a two-finger reference sample is established,
every two-finger move sets the object's scale to the baseline scale times the
current/reference distance ratio, and sets the rotation about the vertical
axis to the baseline rotation MINUS the angle delta between the current and
reference touch angles (the source negates the delta; a `90°` delta rotates
the object by `-π / 2` from the baseline). -/
theorem c7_gesture_transform (t1 t2 u1 u2 : Touch) (p : PlacedObject) (s : GestureState) :
    touchMoveHandler ⟨true, true⟩ [u1, u2] p (touchStartHandler [t1, t2] p s) =
      { p with
          scale := ⟨p.scale.x * (getDistance u1 u2 / getDistance t1 t2),
            p.scale.x * (getDistance u1 u2 / getDistance t1 t2),
            p.scale.x * (getDistance u1 u2 / getDistance t1 t2)⟩
          rotationY := p.rotationY - (getAngle u1 u2 - getAngle t1 t2) } := rfl

/-- Claim C8: while no location fix has arrived (`currentUserLat` and
`currentUserLon` still undefined), each `enableAnchors` frame skips the whole
proximity pass: iterating any number of such frames leaves the tracked-object
list exactly as `loadObjects` built it, no creation or release requests are
issued, and every tracked object is still invisible and unanchored. -/
theorem c8_no_location_fix (hostAttr : Option ℝ) (gp : ℕ → Option Pose)
    (la : Vec3 → Vec3 → Quat) (cam : Vec3) (els : List ObjectElement) (n : ℕ) :
    (fun objs => (anchorsFrame true none hostAttr gp la cam objs).1)^[n] (loadObjects els) =
      loadObjects els ∧
    (anchorsFrame true none hostAttr gp la cam (loadObjects els)).2 = ([], []) ∧
    (loadObjects els).all (fun o => (!o.object.visible) && o.anchor.isNone) = true := by
  refine ⟨?_, rfl, ?_⟩
  · have hid : (fun objs => (anchorsFrame true none hostAttr gp la cam objs).1) = id :=
      funext fun _ => rfl
    rw [hid, Function.iterate_id]
    rfl
  · rw [List.all_eq_true]
    intro o ho
    obtain ⟨hobj, hanch, -⟩ := mem_loadObjects ho
    rw [hobj, hanch]
    rfl

/-- Claim C10: a configured element whose latitude or longitude attribute is
missing, unparseable, or parses to exactly `0`, or whose model source is
missing (or empty), is silently dropped by `loadObjects`: the tracked-object
set — the only collection any proximity, visibility, or anchoring pass
iterates over — is the same as if the element were absent. -/
theorem c10_invalid_element_excluded (e : ObjectElement)
    (h : e.lat = none ∨ e.lat = some 0 ∨ e.lon = none ∨ e.lon = some 0 ∨
      e.src = none ∨ e.src = some "") (pre post : List ObjectElement) :
    loadObjects (pre ++ e :: post) = loadObjects (pre ++ post) := by
  have hnone : loadObject e = none := by
    rcases e with ⟨la, lo, s, d, alt, lu⟩
    simp only at h
    cases la <;> cases lo <;> cases s <;> try rfl
    simp only [loadObject]
    rw [if_neg]
    intro hc
    rcases h with h | h | h | h | h | h <;>
      first
        | exact Option.noConfusion h
        | (rw [Option.some_inj] at h
           first
             | exact hc.1 h
             | exact hc.2.1 h
             | exact hc.2.2 h)
  unfold loadObjects
  rw [List.filterMap_append, List.filterMap_append, List.filterMap_cons, hnone]

theorem c10_witness : loadObjects ([] ++ badElement :: []) = loadObjects ([] ++ []) :=
  c10_invalid_element_excluded badElement (Or.inl rfl) [] []

end KitCoreWebAR
